import Mathlib

/-!
Shallow embedding of the Radeon ProRender Maya plugin sources
(FireRenderViewport.cpp, InstancerMASH.cpp, FireRenderToonMaterial.cpp).

Mutable C++ objects become Lean structures passed explicitly; Maya / RPR SDK
calls whose effects the code depends on are modelled as fields, counters or
abstract parameters. Machine integers are Nat, with an explicit mod 2^32
where an unsigned multiplication could overflow.
-/

namespace RPRMaya

/-- Successor of the largest 32-bit unsigned value; unsigned arithmetic is
taken modulo this. -/
def UINT32_CARD : Nat := 2 ^ 32

/-- Embedding of `RV_PIXEL`: four float channels, floats modelled as rationals
(values are only moved around, never computed with). -/
structure RV_PIXEL where
  r : Rat
  g : Rat
  b : Rat
  a : Rat
deriving DecidableEq

/-- Zero-initialised pixel, as produced by `std::vector<RV_PIXEL>::resize`. -/
def pixZero : RV_PIXEL := ⟨0, 0, 0, 0⟩

/-- Embedding of the relevant `MStatus` outcomes. -/
inductive MStatus where
  | kSuccess
  | kFailure
deriving DecidableEq

/-- Modelled from the spec: the context state enumeration of
`FireRenderContext` (header not in the sources). The four named states are
those the viewport code matches on; `StateOther` stands for any further
enumeration value, handled by the `default` branch of the switch. -/
inductive ContextState where
  | StateExiting
  | StateRendering
  | StatePaused
  | StateUpdating
  | StateOther
deriving DecidableEq

/-- Modelled from the spec: `FireMaya::StoredFrame`, a cached animation frame
holding its dimensions and pixel data. -/
structure StoredFrame where
  width : Nat
  height : Nat
  data : List RV_PIXEL
deriving DecidableEq

/-- Modelled from the spec: `StoredFrame::Resize` returns true exactly when
the frame required resizing to the requested width and height, in which case
the stored data is re-allocated for the new size. -/
def StoredFrame.Resize (f : StoredFrame) (w h : Nat) : Bool × StoredFrame :=
  if f.width = w ∧ f.height = h then (false, f)
  else (true, { width := w, height := h, data := List.replicate (w * h) pixZero })

/-- Default-constructed stored frame, as produced by the texture cache's
index operator for an absent key. -/
def emptyStoredFrame : StoredFrame := ⟨0, 0, []⟩

/-- Embedding of a Maya hardware-backed texture (`MTexture`): its
description dimensions and current pixel contents. -/
structure MTextureRep where
  width : Nat
  height : Nat
  data : List RV_PIXEL
deriving DecidableEq

/-- Modelled from the spec: the parts of `FireRenderContext` the viewport
code reads and writes. SDK effects that the viewport only triggers (render
iterations, colour-AOV resolves, `Freshen`, scene cleaning, camera updates)
are tracked as counters; the resolved colour AOV contents are an abstract
pixel stream indexed by `y * width + x`. -/
structure FireRenderContext where
  state : ContextState
  width : Nat
  height : Nat
  glInteropActive : Bool
  dirty : Bool
  stateHash : Nat
  fbColor : Nat → RV_PIXEL
  renderCount : Nat
  colorResolves : Nat
  freshenCount : Nat
  cameraSets : Nat
  sceneCleanCount : Nat
  limitsAnimating : Bool

/-- Embedding of the `FireRenderViewport` object state: its context, flags,
pixel buffer, hardware texture, animation-frame cache and error bookkeeping.
`launches` counts invocations of `FireRenderThread::KeepRunning`;
`textureReleases` counts `MTextureManager::releaseTexture` calls. -/
structure FireRenderViewport where
  ctx : FireRenderContext
  panelName : String
  isRunning : Bool
  useAnimationCacheFlag : Bool
  pixelsUpdated : Bool
  textureChanged : Bool
  texture : Option MTextureRep
  textureReleases : Nat
  pixels : List RV_PIXEL
  textureCache : List (String × StoredFrame)
  renderingErrors : Nat
  errorSet : Bool
  showDialogNeeded : Bool
  closeDialogNeeded : Bool
  dialogShown : Bool
  launches : Nat

/-- Host environment of one viewport callback: animation state, the render
target size reported by Maya, the texture-size limit constant, and the
outcomes of the Maya API calls the code checks. -/
structure Env where
  animating : Bool
  outputTargetSize : Option (Nat × Nat)
  maxTexSize : Nat
  acquireOk : Bool
  panelViewOk : Bool
  getCameraOk : Bool
  cameraValid : Bool
  firstIterNoShadersCached : Bool

/-- Lookup in the animation-frame texture cache (`m_textureCache`). -/
def lookupFrame (c : List (String × StoredFrame)) (k : String) : Option StoredFrame :=
  (c.find? (fun p => p.1 = k)).map (fun p => p.2)

/-- Store a frame under a key in the texture cache; the new entry shadows any
older one. -/
def insertFrame (c : List (String × StoredFrame)) (k : String) (f : StoredFrame) :
    List (String × StoredFrame) :=
  (k, f) :: c

/-- Embedding of `std::vector<RV_PIXEL>::resize`: truncate or extend with
value-initialised pixels. -/
def listResize (l : List RV_PIXEL) (n : Nat) : List RV_PIXEL :=
  l.take n ++ List.replicate (n - l.length) pixZero

/-- Pixels of the rectangular region x in 0..xmax, y in 0..ymax read from a
frame buffer with row stride `w`, in row-major order, as performed by
`FireRenderContext::readFrameBuffer` for `RenderRegion(0, xmax, 0, ymax)`. -/
def regionPixels (fb : Nat → RV_PIXEL) (w xmax ymax : Nat) : List RV_PIXEL :=
  (List.range (ymax + 1)).flatMap fun y =>
    (List.range (xmax + 1)).map fun x => fb (y * w + x)

namespace FireRenderViewport

/-- Embedding of `FireRenderViewport::getSize`: fetch the output target size
(`none` when `outputTargetSize` fails) and clamp it so neither dimension
exceeds the `FRMAYA_GL_MAX_TEXTURE_SIZE` limit, with unsigned products taken
modulo 2^32. -/
def getSize (limit : Nat) (target : Option (Nat × Nat)) : Option (Nat × Nat) :=
  match target with
  | none => none
  | some (w, h) =>
    if w > h ∧ w > limit then some (limit, h * limit % UINT32_CARD / w)
    else if h > limit then some (w * limit % UINT32_CARD / h, limit)
    else some (w, h)

/-- Embedding of `FireRenderViewport::updateTexture`: create the hardware
texture when none exists (flagging `m_textureChanged`, whether or not the
acquire succeeds), otherwise update the existing texture's contents. -/
def updateTexture (s : FireRenderViewport) (data : List RV_PIXEL) (w h : Nat)
    (acquireOk : Bool) : MStatus × FireRenderViewport :=
  match s.texture with
  | none =>
    let tex : Option MTextureRep := if acquireOk then some ⟨w, h, data⟩ else none
    (.kSuccess, { s with texture := tex, textureChanged := true })
  | some t =>
    (.kSuccess, { s with texture := some { t with data := data } })

/-- Embedding of `FireRenderViewport::hasTextureChanged`: return the flag and
reset it. -/
def hasTextureChanged (s : FireRenderViewport) : Bool × FireRenderViewport :=
  (s.textureChanged, { s with textureChanged := false })

/-- Embedding of `FireRenderViewport::cleanUp`: always clean the RPR scene;
release the hardware texture only when one exists and Maya is not exiting
(`gExitingMaya`). -/
def cleanUp (s : FireRenderViewport) (gExitingMaya : Bool) : FireRenderViewport :=
  let s := { s with ctx := { s.ctx with sceneCleanCount := s.ctx.sceneCleanCount + 1 } }
  if s.texture.isSome && !gExitingMaya then
    { s with texture := none, textureReleases := s.textureReleases + 1 }
  else s

/-- Embedding of `FireRenderViewport::stop`: when the render thread is
running, drive the context to `StateExiting` until the thread observes it and
stops; then close the warning dialog if needed. -/
def stop (s : FireRenderViewport) : FireRenderViewport :=
  let s :=
    if s.isRunning then
      { s with ctx := { s.ctx with state := .StateExiting }, isRunning := false }
    else s
  if s.dialogShown && s.closeDialogNeeded then { s with dialogShown := false } else s

/-- Embedding of `FireRenderViewport::start`: stop a running loop first, fail
on a zero-sized context, otherwise enter `StateRendering`, reset the error
count and hand the loop body to `FireRenderThread::KeepRunning`. -/
def start (s : FireRenderViewport) : Bool × FireRenderViewport :=
  let s := if s.isRunning then stop s else s
  if s.ctx.width = 0 || s.ctx.height = 0 then (false, s)
  else
    let s := { s with ctx := { s.ctx with state := .StateRendering } }
    let s := { s with isRunning := false, renderingErrors := 0, launches := s.launches + 1 }
    (true, s)

end FireRenderViewport

/-- Result of one iteration of the render-loop body: whether the loop
continues, whether a render iteration was performed, whether the frame buffer
was read, and the updated consecutive-error count. -/
structure RVTResult where
  keepGoing : Bool
  didRender : Bool
  didReadFB : Bool
  errorsAfter : Nat
deriving DecidableEq

namespace FireRenderViewport

/-- Embedding of `FireRenderViewport::RunOnViewportThread` over the context
state, the three pending-change predicates, whether the render call throws,
and the current error count. `none` models the exception escaping after more
than three consecutive errors. -/
def RunOnViewportThread (st : ContextState)
    (camChanged needsRedraw keepRunning renderThrows : Bool)
    (errors : Nat) : Option RVTResult :=
  match st with
  | .StateExiting =>
    some { keepGoing := false, didRender := false, didReadFB := false, errorsAfter := errors }
  | .StateRendering =>
    if camChanged || needsRedraw || keepRunning then
      if renderThrows then
        if errors + 1 > 3 then none
        else some { keepGoing := true, didRender := true, didReadFB := false,
                    errorsAfter := errors + 1 }
      else
        some { keepGoing := true, didRender := true, didReadFB := true,
               errorsAfter := if errors > 0 then errors - 1 else errors }
    else
      some { keepGoing := true, didRender := false, didReadFB := false, errorsAfter := errors }
  | _ =>
    some { keepGoing := true, didRender := false, didReadFB := false, errorsAfter := errors }

/-- Embedding of `FireRenderViewport::clearPixels`: fill the pixel buffer
with opaque black. -/
def clearPixels (s : FireRenderViewport) : FireRenderViewport :=
  { s with pixels := List.replicate s.pixels.length ⟨0, 0, 0, 1⟩ }

/-- Embedding of `FireRenderViewport::readFrameBuffer`. With GL interop
active only the colour AOV is resolved. Otherwise the colour AOV is read
over `RenderRegion(0, width - 1, 0, height - 1)`, either into the supplied
stored frame, or into `m_pixels` with `m_pixelsUpdated` set. -/
def readFrameBuffer (s : FireRenderViewport) (storedFrame : Option StoredFrame) :
    FireRenderViewport × Option StoredFrame :=
  if s.ctx.glInteropActive then
    ({ s with ctx := { s.ctx with colorResolves := s.ctx.colorResolves + 1 } }, storedFrame)
  else
    match storedFrame with
    | some f =>
      (s, some { f with
        data := regionPixels s.ctx.fbColor s.ctx.width (s.ctx.width - 1) (s.ctx.height - 1) })
    | none =>
      ({ s with
          pixels := regionPixels s.ctx.fbColor s.ctx.width (s.ctx.width - 1) (s.ctx.height - 1),
          pixelsUpdated := true }, none)

/-- Embedding of `FireRenderViewport::resizeFrameBufferStandard`: resize the
RPR context and the pixel buffer, perform an initial frame-buffer read and
update the texture. -/
def resizeFrameBufferStandard (env : Env) (s : FireRenderViewport) (w h : Nat) :
    FireRenderViewport :=
  let s := { s with ctx := { s.ctx with width := w, height := h } }
  let s := { s with pixels := listResize s.pixels (w * h) }
  let s := (readFrameBuffer s none).1
  (updateTexture s s.pixels w h env.acquireOk).2

/-- Embedding of `FireRenderViewport::resizeFrameBufferGLInterop`: resize and
clear the pixel buffer, update the texture, and resize the RPR context with
the shared GL texture only when the hardware texture exists. -/
def resizeFrameBufferGLInterop (env : Env) (s : FireRenderViewport) (w h : Nat) :
    FireRenderViewport :=
  let s := { s with pixels := listResize s.pixels (w * h) }
  let s := clearPixels s
  let s := (updateTexture s s.pixels w h env.acquireOk).2
  match s.texture with
  | some _ => { s with ctx := { s.ctx with width := w, height := h } }
  | none => s

/-- Texture-release step at the top of `FireRenderViewport::resize`: delete
the existing hardware-backed texture through the texture manager. -/
def resizeReleaseTexture (s : FireRenderViewport) : FireRenderViewport :=
  match s.texture with
  | some _ => { s with texture := none, textureReleases := s.textureReleases + 1 }
  | none => s

/-- Embedding of `FireRenderViewport::resize`: clear the frame cache, release
the hardware texture, flag the shader-compile dialog on a first iteration
without cached shaders, resize the frame buffer, re-acquire the panel camera
and mark the context dirty. Failures of the two Maya view calls propagate. -/
def resize (env : Env) (s : FireRenderViewport) (w h : Nat) :
    MStatus × FireRenderViewport :=
  let s := { s with textureCache := [] }
  let s := resizeReleaseTexture s
  let s :=
    if env.firstIterNoShadersCached then
      { s with closeDialogNeeded := false, showDialogNeeded := true }
    else s
  let s :=
    if s.ctx.glInteropActive then resizeFrameBufferGLInterop env s w h
    else resizeFrameBufferStandard env s w h
  if !env.panelViewOk then (.kFailure, s)
  else if !env.getCameraOk then (.kFailure, s)
  else
    let s :=
      if env.cameraValid then
        { s with ctx := { s.ctx with cameraSets := s.ctx.cameraSets + 1 } }
      else s
    (.kSuccess, { s with ctx := { s.ctx with dirty := true } })

/-- Embedding of `FireRenderViewport::refreshContext`: `Freshen` the context
when it is dirty (exceptions from `Freshen` are not modelled). -/
def refreshContext (s : FireRenderViewport) : MStatus × FireRenderViewport :=
  if !s.ctx.dirty then (.kSuccess, s)
  else
    (.kSuccess,
      { s with ctx := { s.ctx with dirty := false, freshenCount := s.ctx.freshenCount + 1 } })

/-- Key of the animation-frame cache entry: the panel name joined with the
context state hash, as built by `renderCached`. -/
def cacheKey (s : FireRenderViewport) : String :=
  s.panelName ++ ";" ++ toString s.ctx.stateHash

/-- Embedding of `FireRenderViewport::renderCached`: clear `m_pixelsUpdated`,
fetch the cached frame for the panel-name/state-hash key, render and read the
frame buffer only when the frame required resizing, and update the viewport
texture from the frame data (`m_context.render()` is tracked by
`renderCount`; its exceptions are not modelled). -/
def renderCached (acquireOk : Bool) (s : FireRenderViewport) (w h : Nat) :
    MStatus × FireRenderViewport :=
  let s := { s with pixelsUpdated := false }
  let key := cacheKey s
  let frame0 := (lookupFrame s.textureCache key).getD emptyStoredFrame
  let rz := StoredFrame.Resize frame0 w h
  if rz.1 then
    let s := { s with ctx := { s.ctx with renderCount := s.ctx.renderCount + 1 } }
    let rd := readFrameBuffer s (some rz.2)
    let frame := rd.2.getD rz.2
    let s := { rd.1 with textureCache := insertFrame rd.1.textureCache key frame }
    updateTexture s frame.data w h acquireOk
  else
    let s := { s with textureCache := insertFrame s.textureCache key rz.2 }
    updateTexture s rz.2.data w h acquireOk

/-- Size-change and context-refresh steps of `doSetup`: resize when the
viewport dimensions differ from the context's, then refresh the context. -/
def doSetupPrepTail (env : Env) (s : FireRenderViewport) (w h : Nat) :
    MStatus × FireRenderViewport :=
  if w ≠ s.ctx.width ∨ h ≠ s.ctx.height then
    match resize env s w h with
    | (.kFailure, s1) => (.kFailure, s1)
    | (.kSuccess, s1) => refreshContext s1
  else refreshContext s

/-- State transformation of `doSetup` up to the cache/start branch: update
the render limits, stop the render thread when cached frames will be used,
resize on a viewport size change, and refresh the context. -/
def doSetupPrep (env : Env) (s : FireRenderViewport) (w h : Nat) :
    MStatus × FireRenderViewport :=
  let s := { s with ctx := { s.ctx with limitsAnimating := env.animating } }
  let useCache := env.animating && s.useAnimationCacheFlag && !s.ctx.glInteropActive
  let s := if s.isRunning && useCache then stop s else s
  doSetupPrepTail env s w h

/-- Embedding of `FireRenderViewport::doSetup`: check for errors, obtain the
clamped viewport size, run the preparation steps, then either serve a cached
frame or ensure the render thread is running. -/
def doSetup (env : Env) (s : FireRenderViewport) : MStatus × FireRenderViewport :=
  if s.errorSet then (.kFailure, s)
  else
    match getSize env.maxTexSize env.outputTargetSize with
    | none => (.kFailure, s)
    | some (w, h) =>
      let useCache := env.animating && s.useAnimationCacheFlag && !s.ctx.glInteropActive
      match doSetupPrep env s w h with
      | (.kFailure, s1) => (.kFailure, s1)
      | (.kSuccess, s1) =>
        if s1.errorSet then (.kFailure, s1)
        else if useCache then renderCached env.acquireOk s1 w h
        else if !s1.isRunning then (.kSuccess, (start s1).2)
        else (.kSuccess, s1)

/-- Embedding of the texture-update step at the top of
`FireRenderViewport::setup` (the copy of `m_pixels` into the Maya texture,
performed only when GL interop is inactive and `m_pixelsUpdated` is set). -/
def setupTexturePhase (s : FireRenderViewport) (acquireOk : Bool) : FireRenderViewport :=
  if !s.ctx.glInteropActive && s.pixelsUpdated then
    (updateTexture s s.pixels s.ctx.width s.ctx.height acquireOk).2
  else s

/-- Embedding of `FireRenderViewport::setup`: the texture-update step
followed by `doSetup` on the rendering thread. -/
def setup (env : Env) (s : FireRenderViewport) : MStatus × FireRenderViewport :=
  doSetup env (setupTexturePhase s env.acquireOk)

end FireRenderViewport

/-! InstancerMASH (InstancerMASH.cpp). Maya matrices are modelled over an
arbitrary multiplication-carrying type `M`; the Maya API calls the code uses
(`MTransformationMatrix::asMatrix`, `deg2rad`) are abstract parameters, so
theorems hold for any implementation of them. -/

/-- Embedding of `MVector` (three doubles, modelled as rationals). -/
structure MVector where
  x : Rat
  y : Rat
  z : Rat
deriving DecidableEq

/-- Embedding of `MTransformationMatrix::RotationOrder` (the plugin only uses
`kXYZ`). -/
inductive RotationOrder where
  | kInvalid
  | kXYZ
  | kYZX
  | kZXY
  | kXZY
  | kYXZ
  | kZYX
deriving DecidableEq

/-- Decomposed `MTransformationMatrix`: the scale, rotation and translation
components the plugin sets through the Maya API. -/
structure MTransformationMatrixRec where
  scale : MVector
  rotation : MVector
  rotationOrder : RotationOrder
  translation : MVector
deriving DecidableEq

/-- Abstract interface to the Maya math API: conversion of a decomposed
transformation to a matrix of type `M`, and degree-to-radian conversion. -/
structure MayaMatrixApi (M : Type) where
  asMatrix : MTransformationMatrixRec → M
  deg2rad : Rat → Rat

/-- Embedding of one instanced object (`FireRenderMeshMASH`): its transform
and the effects `Freshen` applies to it (`Rebuild` count, dirty flag,
visibility). -/
structure MASHInstance (M : Type) where
  transform : M
  rebuildCount : Nat
  dirty : Bool
  visible : Bool

/-- Embedding of the `InstancerMASH` node state: target objects (as opaque
handles), the `instanceCount` plug, the MASH position/rotation/scale arrays,
the instancer and target-parent transformations, the template transform the
generated instances copy from the target's render mesh, and the instance
map. -/
structure InstancerMASH (M : Type) where
  targetObjects : List Nat
  instanceCount : Nat
  positionData : Nat → MVector
  rotationData : Nat → MVector
  scaleData : Nat → MVector
  instancerTransform : MTransformationMatrixRec
  targetParentTransform : MTransformationMatrixRec
  templateTransform : M
  instancedObjects : List (MASHInstance M)
  instancedObjectsCachedSize : Nat

namespace InstancerMASH

/-- Decomposed transformation built by `GetTransformMatrices` for instance
`i`: the MASH scale, the rotation converted from degrees to radians with
rotation order XYZ, and the MASH position as translation. -/
def mashTransform {M : Type} (api : MayaMatrixApi M) (inst : InstancerMASH M)
    (i : Nat) : MTransformationMatrixRec :=
  { scale := inst.scaleData i
    rotation :=
      ⟨api.deg2rad (inst.rotationData i).x,
       api.deg2rad (inst.rotationData i).y,
       api.deg2rad (inst.rotationData i).z⟩
    rotationOrder := .kXYZ
    translation := inst.positionData i }

/-- Embedding of `InstancerMASH::GetTransformMatrices`: one matrix per
instance, built from the MASH arrays. -/
def GetTransformMatrices {M : Type} (api : MayaMatrixApi M)
    (inst : InstancerMASH M) : List M :=
  (List.range inst.instanceCount).map fun i => api.asMatrix (mashTransform api inst i)

/-- Embedding of `InstancerMASH::GenerateInstances`: one fresh instance per
index, copying the target's render mesh. -/
def GenerateInstances {M : Type} (inst : InstancerMASH M) : List (MASHInstance M) :=
  (List.range inst.instanceCount).map fun _ =>
    { transform := inst.templateTransform, rebuildCount := 0, dirty := false, visible := true }

/-- Embedding of `InstancerMASH::Freshen`: return unchanged when there are no
target objects; otherwise (re)generate instances if absent, zero the
translation of the target node's parent transformation, and give every
instance the transform `targetNodeMatrix * mashMatrix(i) * instancerMatrix`,
rebuilding it and marking it dirty. -/
def Freshen {M : Type} [Mul M] (api : MayaMatrixApi M) (inst : InstancerMASH M) :
    InstancerMASH M :=
  if inst.targetObjects = [] then inst
  else
    let objs :=
      if inst.instancedObjects.isEmpty then GenerateInstances inst
      else inst.instancedObjects
    let targetNodeMatrix : MTransformationMatrixRec :=
      { inst.targetParentTransform with translation := ⟨0, 0, 0⟩ }
    let matricesFromMASH := GetTransformMatrices api inst
    let newObjs := (List.range inst.instanceCount).map fun i =>
      let o := (objs[i]?).getD
        { transform := inst.templateTransform, rebuildCount := 0,
          dirty := false, visible := true }
      let m := (matricesFromMASH[i]?).getD (api.asMatrix (mashTransform api inst i))
      { o with
          transform := api.asMatrix targetNodeMatrix * m * api.asMatrix inst.instancerTransform,
          rebuildCount := o.rebuildCount + 1,
          dirty := true }
    { inst with instancedObjects := newObjs, instancedObjectsCachedSize := inst.instanceCount }

end InstancerMASH

/-! ToonMaterial (FireRenderToonMaterial.cpp). The shader built by
`GetShader` is represented as a term: a parameter node with its input
assignments and optional linked light, or a blend of two shaders. -/

/-- Embedding of an `frw::Value` read from a plug by `Scope::GetValue`: an
abstract payload plus the node type that `GetNodeType` reports. -/
structure FrwValue where
  payload : Rat
  nodeType : Nat
deriving DecidableEq

/-- Node-type constants checked by `GetShader` for the normal input. -/
def ValueTypeNormalMap : Nat := 1

/-- Node-type constant for bump maps. -/
def ValueTypeBumpMap : Nat := 2

/-- Embedding of the RPR material input identifiers the toon material uses. -/
inductive MaterialInput where
  | COLOR
  | TOON_5_COLORS
  | HIGHLIGHT2
  | HIGHLIGHT
  | MID
  | SHADOW
  | SHADOW2
  | POSITION_SHADOW
  | POSITION1
  | POSITION2
  | POSITION_HIGHLIGHT
  | INTERPOLATION
  | RANGE_SHADOW
  | RANGE1
  | RANGE2
  | RANGE_HIGHLIGHT
  | ROUGHNESS
  | NORMAL
  | DIFFUSE_RAMP
deriving DecidableEq

/-- Interpolation-mode constants passed to the toon ramp. -/
def INTERPOLATION_MODE_NONE : Int := 0

/-- Linear interpolation mode, set when mix levels are shown. -/
def INTERPOLATION_MODE_LINEAR : Int := 1

/-- Embedding of an `frw::ToonRampNode`: its integer and value inputs in
assignment order. -/
structure ToonRampRep where
  intInputs : List (MaterialInput × Int)
  valueInputs : List (MaterialInput × FrwValue)
deriving DecidableEq

/-- Value assigned to a shader input: a plug value or a toon ramp node. -/
inductive ShaderInputValue where
  | val (v : FrwValue)
  | ramp (r : ToonRampRep)
deriving DecidableEq

/-- Shader types the toon material constructs. -/
inductive ShaderType where
  | Toon
  | Transparent
deriving DecidableEq

/-- Embedding of an `frw::Shader` as built by `GetShader`: a node with its
input assignments and optional linked light, or a `ShaderBlend` of two
shaders weighted by a value. -/
inductive FrwShader where
  | node (ty : ShaderType) (inputs : List (MaterialInput × ShaderInputValue))
      (light : Option Nat)
  | blend (a b : FrwShader) (weight : FrwValue)
deriving DecidableEq

/-- Whether the built shader is a `ShaderBlend`. -/
def FrwShader.isBlend : FrwShader → Bool
  | .blend _ _ _ => true
  | .node _ _ _ => false

/-- Whether any node of the built shader has a light linked to it. -/
def FrwShader.hasLinkedLight : FrwShader → Bool
  | .node _ _ light => light.isSome
  | .blend a b _ => a.hasLinkedLight || b.hasLinkedLight

/-- Values of the toon material's plugs, as read through
`MFnDependencyNode::findPlug` and `Scope::GetValue`. -/
structure ToonPlugs where
  showAdvanced : Bool
  showMixLevels : Bool
  enable5Colors : Bool
  transparencyEnable : Bool
  enableLightLinking : Bool
  color : FrwValue
  normal : FrwValue
  roughness : FrwValue
  transparencyLevel : FrwValue
  highlightColor : FrwValue
  highlightColor2 : FrwValue
  midColor : FrwValue
  shadowColor : FrwValue
  shadowColor2 : FrwValue
  rampPositionShadow : FrwValue
  rampPosition1 : FrwValue
  rampPosition2 : FrwValue
  rampPositionHighlight : FrwValue
  rampRangeShadow : FrwValue
  rampRange1 : FrwValue
  rampRange2 : FrwValue
  rampRangeHighlight : FrwValue

/-- Render types distinguished by `linkLight`. -/
inductive RenderType where
  | Normal
  | Thumbnail
  | Undefined
deriving DecidableEq

/-- Environment of `GetShader`: the render type and the outcome of the
light-lookup steps of `linkLight` (whether the named light exists in the
scene and which RPR light the context resolves it to). -/
structure ToonEnv where
  renderType : RenderType
  lightFound : Bool
  rprLight : Option Nat

namespace ToonMaterial

/-- Toon ramp built in the advanced branch of `GetShader`. -/
def buildToonRamp (p : ToonPlugs) : ToonRampRep :=
  { intInputs :=
      [(.TOON_5_COLORS, if p.enable5Colors then 1 else 0)] ++
      (if p.showMixLevels then [(.INTERPOLATION, INTERPOLATION_MODE_LINEAR)]
       else [(.INTERPOLATION, INTERPOLATION_MODE_NONE)])
    valueInputs :=
      [(.HIGHLIGHT2, p.highlightColor2), (.HIGHLIGHT, p.highlightColor),
       (.MID, p.midColor), (.SHADOW, p.shadowColor), (.SHADOW2, p.shadowColor2),
       (.POSITION_SHADOW, p.rampPositionShadow), (.POSITION1, p.rampPosition1),
       (.POSITION2, p.rampPosition2), (.POSITION_HIGHLIGHT, p.rampPositionHighlight)] ++
      (if p.showMixLevels then
        [(.RANGE_SHADOW, p.rampRangeShadow), (.RANGE1, p.rampRange1),
         (.RANGE2, p.rampRange2), (.RANGE_HIGHLIGHT, p.rampRangeHighlight)]
       else []) }

/-- Toon shader node assembled by `GetShader` before the transparency and
light-linking steps. -/
def buildToonShader (p : ToonPlugs) : FrwShader :=
  .node .Toon
    ([(.COLOR, .val p.color)] ++
     (if p.showAdvanced then [(.DIFFUSE_RAMP, .ramp (buildToonRamp p))] else []) ++
     [(.ROUGHNESS, .val p.roughness)] ++
     (if p.normal.nodeType = ValueTypeNormalMap ∨ p.normal.nodeType = ValueTypeBumpMap then
       [(.NORMAL, .val p.normal)]
      else []))
    none

/-- Embedding of `ToonMaterial::linkLight`: skip for swatch renders, look up
the linked light, and set it on the shader when found. -/
def linkLight (env : ToonEnv) (sh : FrwShader) : FrwShader :=
  if env.renderType = .Thumbnail ∨ env.renderType = .Undefined then sh
  else if !env.lightFound then sh
  else
    match env.rprLight with
    | none => sh
    | some l =>
      match sh with
      | .node ty inputs _ => .node ty inputs (some l)
      | .blend a b w => .blend a b w

/-- Embedding of `FireMaya::ToonMaterial::GetShader`: build the toon shader;
when transparency is enabled, return a blend with a transparent shader
weighted by the transparency level; otherwise apply light linking when
enabled. -/
def GetShader (env : ToonEnv) (p : ToonPlugs) : FrwShader :=
  let shader := buildToonShader p
  if p.transparencyEnable then
    .blend shader (.node .Transparent [] none) p.transparencyLevel
  else if p.enableLightLinking then linkLight env shader
  else shader

end ToonMaterial

/-! Sample states used by the witness theorems. -/

/-- Concrete render context for witnesses. -/
def sampleCtx : FireRenderContext :=
  { state := .StateRendering, width := 2, height := 2, glInteropActive := false,
    dirty := false, stateHash := 7, fbColor := fun n => ⟨n, 0, 0, 1⟩,
    renderCount := 0, colorResolves := 0, freshenCount := 0, cameraSets := 0,
    sceneCleanCount := 0, limitsAnimating := false }

/-- Concrete viewport state for witnesses: a running viewport with animation
caching enabled and no hardware texture yet. -/
def sampleViewport : FireRenderViewport :=
  { ctx := sampleCtx, panelName := "modelPanel4", isRunning := true,
    useAnimationCacheFlag := true, pixelsUpdated := false, textureChanged := false,
    texture := none, textureReleases := 0, pixels := [], textureCache := [],
    renderingErrors := 0, errorSet := false, showDialogNeeded := false,
    closeDialogNeeded := false, dialogShown := false, launches := 0 }

/-- Concrete environment for witnesses: the host is animating and reports a
2x2 render target. -/
def sampleEnv : Env :=
  { animating := true, outputTargetSize := some (2, 2), maxTexSize := 100,
    acquireOk := true, panelViewOk := true, getCameraOk := true,
    cameraValid := true, firstIterNoShadersCached := false }

/-- Running viewport whose context has width zero, exercising the early-out
of `start`. -/
def zeroSizeRunningViewport : FireRenderViewport :=
  { sampleViewport with ctx := { sampleCtx with width := 0 } }

/-- Division bound used for the texture-size clamp. -/
theorem auxDivLe {a b c : Nat} (hc : 0 < c) (h : a ≤ c * b) : a / c ≤ b := by
  calc a / c ≤ c * b / c := Nat.div_le_div_right h
  _ = b := Nat.mul_div_cancel_left b hc

/-- C8: `getSize` leaves a pair within the limit unchanged; when width is the
larger dimension and exceeds the limit it clamps width to the limit and
scales height by `height * limit / width` in integer arithmetic, otherwise
when height exceeds the limit it clamps height and scales width by
`width * limit / height`; in every case both results are at most the limit. -/
theorem getSize_clamps (L w h : Nat) :
    (w ≤ L → h ≤ L → FireRenderViewport.getSize L (some (w, h)) = some (w, h))
    ∧ (w > h → w > L → h * L < UINT32_CARD →
        FireRenderViewport.getSize L (some (w, h)) = some (L, h * L / w))
    ∧ (¬(w > h ∧ w > L) → h > L → w * L < UINT32_CARD →
        FireRenderViewport.getSize L (some (w, h)) = some (w * L / h, L))
    ∧ (∀ w2 h2, FireRenderViewport.getSize L (some (w, h)) = some (w2, h2) →
        w2 ≤ L ∧ h2 ≤ L) := by
  refine ⟨?_, ?_, ?_, ?_⟩
  · intro h1 h2
    have c1 : ¬(w > h ∧ w > L) := by omega
    have c2 : ¬(h > L) := by omega
    simp [FireRenderViewport.getSize, c1, c2]
  · intro hwh hwL hov
    have c1 : w > h ∧ w > L := ⟨hwh, hwL⟩
    simp [FireRenderViewport.getSize, c1, Nat.mod_eq_of_lt hov]
  · intro hc1 hL hov
    simp [FireRenderViewport.getSize, hc1, hL, Nat.mod_eq_of_lt hov]
  · intro w2 h2 heq
    simp only [FireRenderViewport.getSize] at heq
    split_ifs at heq with c1 c2
    · rw [Option.some_inj, Prod.mk.injEq] at heq
      obtain ⟨h3, h4⟩ := heq
      subst h3
      subst h4
      refine ⟨le_refl L, ?_⟩
      have hw : 0 < w := by omega
      refine auxDivLe hw ?_
      calc h * L % UINT32_CARD ≤ h * L := Nat.mod_le _ _
      _ ≤ w * L := Nat.mul_le_mul_right L (by omega)
    · rw [Option.some_inj, Prod.mk.injEq] at heq
      obtain ⟨h3, h4⟩ := heq
      subst h3
      subst h4
      refine ⟨?_, le_refl L⟩
      have hh : 0 < h := by omega
      refine auxDivLe hh ?_
      calc w * L % UINT32_CARD ≤ w * L := Nat.mod_le _ _
      _ ≤ h * L := Nat.mul_le_mul_right L (by omega)
    · rw [Option.some_inj, Prod.mk.injEq] at heq
      obtain ⟨h3, h4⟩ := heq
      subst h3
      subst h4
      omega

/-- C8 witness: a 100x50 target with limit 10 is clamped to 10x5, and a 4x3
target within the limit is unchanged. -/
theorem getSize_clamps_witness :
    (100 > 50 ∧ 100 > 10 ∧ 50 * 10 < UINT32_CARD
      ∧ FireRenderViewport.getSize 10 (some (100, 50)) = some (10, 5))
    ∧ (4 ≤ 10 ∧ 3 ≤ 10 ∧ FireRenderViewport.getSize 10 (some (4, 3)) = some (4, 3)) :=
  ⟨⟨by decide, by decide, by decide,
      (getSize_clamps 10 100 50).2.1 (by decide) (by decide) (by decide)⟩,
   ⟨by decide, by decide,
      (getSize_clamps 10 4 3).1 (by decide) (by decide)⟩⟩

/-- C9: `hasTextureChanged` returns the current flag and resets it, so the
second of two consecutive calls returns false; `updateTexture` sets the flag
on the texture-creation branch and leaves it unchanged on the update
branch. -/
theorem hasTextureChanged_resets (s : FireRenderViewport) (d : List RV_PIXEL)
    (w h : Nat) (ok : Bool) :
    (FireRenderViewport.hasTextureChanged s).1 = s.textureChanged
    ∧ (FireRenderViewport.hasTextureChanged
        (FireRenderViewport.hasTextureChanged s).2).1 = false
    ∧ (s.texture = none →
        (FireRenderViewport.updateTexture s d w h ok).2.textureChanged = true)
    ∧ (∀ t, s.texture = some t →
        (FireRenderViewport.updateTexture s d w h ok).2.textureChanged = s.textureChanged) := by
  refine ⟨rfl, rfl, ?_, ?_⟩
  · intro hn
    simp [FireRenderViewport.updateTexture, hn]
  · intro t ht
    simp [FireRenderViewport.updateTexture, ht]

/-- C9 witness: on the sample viewport (no texture) `updateTexture` sets the
flag, and two consecutive `hasTextureChanged` calls end in false. -/
theorem hasTextureChanged_resets_witness :
    sampleViewport.texture = none
    ∧ (FireRenderViewport.updateTexture sampleViewport [] 1 1 true).2.textureChanged = true
    ∧ (FireRenderViewport.hasTextureChanged
        (FireRenderViewport.hasTextureChanged sampleViewport).2).1 = false :=
  ⟨rfl, (hasTextureChanged_resets sampleViewport [] 1 1 true).2.2.1 rfl,
   (hasTextureChanged_resets sampleViewport [] 1 1 true).2.1⟩

/-- C7: `cleanUp` always cleans the RPR scene; it releases the hardware
texture and clears the texture field exactly when a texture exists and Maya
is not exiting; with the exiting flag set the texture is untouched. -/
theorem cleanUp_spec (s : FireRenderViewport) (g : Bool) :
    (FireRenderViewport.cleanUp s g).ctx.sceneCleanCount = s.ctx.sceneCleanCount + 1
    ∧ (FireRenderViewport.cleanUp s g).texture
        = (if s.texture.isSome && !g then none else s.texture)
    ∧ (FireRenderViewport.cleanUp s g).textureReleases
        = s.textureReleases + (if s.texture.isSome && !g then 1 else 0)
    ∧ (g = true →
        (FireRenderViewport.cleanUp s g).texture = s.texture
        ∧ (FireRenderViewport.cleanUp s g).textureReleases = s.textureReleases) := by
  by_cases hc : (s.texture.isSome && !g) = true
  · refine ⟨by simp [FireRenderViewport.cleanUp, hc],
      by simp [FireRenderViewport.cleanUp, hc],
      by simp [FireRenderViewport.cleanUp, hc], ?_⟩
    intro hg
    rw [hg] at hc
    simp at hc
  · exact ⟨by simp [FireRenderViewport.cleanUp, hc],
      by simp [FireRenderViewport.cleanUp, hc],
      by simp [FireRenderViewport.cleanUp, hc],
      fun _ => ⟨by simp [FireRenderViewport.cleanUp, hc],
        by simp [FireRenderViewport.cleanUp, hc]⟩⟩

/-- C7 witness: with the exiting flag set, the sample viewport's texture
field and release count are untouched while the scene is still cleaned. -/
theorem cleanUp_spec_witness :
    (FireRenderViewport.cleanUp sampleViewport true).ctx.sceneCleanCount
      = sampleViewport.ctx.sceneCleanCount + 1
    ∧ (FireRenderViewport.cleanUp sampleViewport true).texture = sampleViewport.texture
    ∧ (FireRenderViewport.cleanUp sampleViewport true).textureReleases
      = sampleViewport.textureReleases :=
  ⟨(cleanUp_spec sampleViewport true).1,
   ((cleanUp_spec sampleViewport true).2.2.2 rfl).1,
   ((cleanUp_spec sampleViewport true).2.2.2 rfl).2⟩

/-- C2: with a non-throwing render call, one step of the render-loop body
returns false exactly in `StateExiting`, performs a render iteration exactly
in `StateRendering` with a pending change, and reads the frame buffer exactly
when it renders. -/
theorem runOnViewportThread_spec (st : ContextState) (c n k : Bool) (e : Nat) :
    ∃ r, FireRenderViewport.RunOnViewportThread st c n k false e = some r
      ∧ (r.keepGoing = false ↔ st = ContextState.StateExiting)
      ∧ (r.didRender = true ↔ (st = ContextState.StateRendering ∧ (c || n || k) = true))
      ∧ r.didReadFB = r.didRender := by
  cases st
  case StateExiting => exact ⟨_, rfl, by simp, by simp, rfl⟩
  case StateRendering =>
    by_cases hp : (c || n || k) = true
    · exact ⟨{ keepGoing := true, didRender := true, didReadFB := true,
               errorsAfter := if e > 0 then e - 1 else e },
        by simp [FireRenderViewport.RunOnViewportThread, hp], by simp, by simp [hp], rfl⟩
    · exact ⟨{ keepGoing := true, didRender := false, didReadFB := false, errorsAfter := e },
        by simp [FireRenderViewport.RunOnViewportThread, hp], by simp, by simp [hp], rfl⟩
  case StatePaused => exact ⟨_, rfl, by simp, by simp, rfl⟩
  case StateUpdating => exact ⟨_, rfl, by simp, by simp, rfl⟩
  case StateOther => exact ⟨_, rfl, by simp, by simp, rfl⟩

/-- C10 counterexample: on a running viewport whose context width is zero,
`start` returns false but does change the context state (the stop of the
running loop drives it to `StateExiting`). -/
theorem start_zeroWidth_changesState :
    (FireRenderViewport.start zeroSizeRunningViewport).1 = false
    ∧ (FireRenderViewport.start zeroSizeRunningViewport).2.ctx.state
        ≠ zeroSizeRunningViewport.ctx.state := by
  exact ⟨rfl, by decide⟩

/-- C10 (amended): with a zero dimension `start` returns false and does not
launch the loop, leaving the context state unchanged when no loop was
running and at `StateExiting` when one had to be stopped; with non-zero
dimensions it enters `StateRendering`, resets the error count, launches the
loop and returns true. -/
theorem start_spec (s : FireRenderViewport) :
    (s.ctx.width = 0 ∨ s.ctx.height = 0 →
      (FireRenderViewport.start s).1 = false
      ∧ (FireRenderViewport.start s).2.launches = s.launches
      ∧ (s.isRunning = false → (FireRenderViewport.start s).2.ctx.state = s.ctx.state)
      ∧ (s.isRunning = true →
          (FireRenderViewport.start s).2.ctx.state = ContextState.StateExiting))
    ∧ (s.ctx.width ≠ 0 → s.ctx.height ≠ 0 →
      (FireRenderViewport.start s).1 = true
      ∧ (FireRenderViewport.start s).2.ctx.state = ContextState.StateRendering
      ∧ (FireRenderViewport.start s).2.renderingErrors = 0
      ∧ (FireRenderViewport.start s).2.launches = s.launches + 1) := by
  unfold FireRenderViewport.start FireRenderViewport.stop
  by_cases hr : s.isRunning <;> simp only [hr] <;> split_ifs <;> simp_all <;> omega

/-- C10 witness: on the zero-width running sample the amended claim's
zero-dimension branch applies, and on the untouched running sample the
success branch applies. -/
theorem start_spec_witness :
    (zeroSizeRunningViewport.ctx.width = 0
      ∧ (FireRenderViewport.start zeroSizeRunningViewport).1 = false
      ∧ (FireRenderViewport.start zeroSizeRunningViewport).2.launches
          = zeroSizeRunningViewport.launches
      ∧ (FireRenderViewport.start zeroSizeRunningViewport).2.ctx.state
          = ContextState.StateExiting)
    ∧ ((FireRenderViewport.start sampleViewport).1 = true
      ∧ (FireRenderViewport.start sampleViewport).2.ctx.state
          = ContextState.StateRendering
      ∧ (FireRenderViewport.start sampleViewport).2.renderingErrors = 0
      ∧ (FireRenderViewport.start sampleViewport).2.launches
          = sampleViewport.launches + 1) :=
  ⟨⟨rfl, ((start_spec zeroSizeRunningViewport).1 (Or.inl rfl)).1,
     ((start_spec zeroSizeRunningViewport).1 (Or.inl rfl)).2.1,
     ((start_spec zeroSizeRunningViewport).1 (Or.inl rfl)).2.2.2 rfl⟩,
   (start_spec sampleViewport).2 (by decide) (by decide)⟩

/-- Row-major region reads concatenate to the pixel prefix of the frame
buffer. -/
theorem regionPixels_rows (fb : Nat → RV_PIXEL) (w : Nat) :
    ∀ h, ((List.range h).flatMap fun y => (List.range w).map fun x => fb (y * w + x))
      = (List.range (h * w)).map fb := by
  intro h
  induction h with
  | zero => simp
  | succ n ih =>
    rw [List.range_succ, List.flatMap_append, ih, Nat.succ_mul, List.range_add,
      List.map_append, List.map_map]
    congr 1
    simp [Function.comp]

/-- Reading `RenderRegion(0, w - 1, 0, h - 1)` of a frame buffer with stride
`w` yields exactly the first `w * h` pixels in order. -/
theorem regionPixels_full (fb : Nat → RV_PIXEL) (w h : Nat) (hw : 1 ≤ w) (hh : 1 ≤ h) :
    regionPixels fb w (w - 1) (h - 1) = (List.range (w * h)).map fb := by
  unfold regionPixels
  rw [Nat.sub_add_cancel hh, Nat.sub_add_cancel hw, regionPixels_rows,
    Nat.mul_comm]

/-- C3: with GL interop active, the texture-update step of `setup` does
nothing regardless of `m_pixelsUpdated` (so `setup` is exactly `doSetup`),
and `readFrameBuffer` only resolves the colour AOV, leaving everything else
— in particular `m_pixels` and `m_pixelsUpdated` — unchanged. -/
theorem glInterop_setup_readFrameBuffer (s : FireRenderViewport) (ok : Bool)
    (env : Env) (stf : Option StoredFrame)
    (hGL : s.ctx.glInteropActive = true) :
    FireRenderViewport.setupTexturePhase s ok = s
    ∧ FireRenderViewport.setup env s = FireRenderViewport.doSetup env s
    ∧ (FireRenderViewport.readFrameBuffer s stf).1
        = { s with ctx := { s.ctx with colorResolves := s.ctx.colorResolves + 1 } }
    ∧ (FireRenderViewport.readFrameBuffer s stf).2 = stf
    ∧ (FireRenderViewport.readFrameBuffer s stf).1.pixels = s.pixels
    ∧ (FireRenderViewport.readFrameBuffer s stf).1.pixelsUpdated = s.pixelsUpdated := by
  have hphase : FireRenderViewport.setupTexturePhase s ok = s := by
    simp [FireRenderViewport.setupTexturePhase, hGL]
  refine ⟨hphase, ?_, ?_, ?_, ?_, ?_⟩
  · unfold FireRenderViewport.setup
    rw [show FireRenderViewport.setupTexturePhase s env.acquireOk = s by
      simp [FireRenderViewport.setupTexturePhase, hGL]]
  · simp [FireRenderViewport.readFrameBuffer, hGL]
  · simp [FireRenderViewport.readFrameBuffer, hGL]
  · simp [FireRenderViewport.readFrameBuffer, hGL]
  · simp [FireRenderViewport.readFrameBuffer, hGL]

/-- C3 witness: a GL-interop viewport with the pixels-updated flag set still
passes the texture-update step untouched, and a frame-buffer read leaves the
pixel state alone. -/
theorem glInterop_setup_readFrameBuffer_witness :
    ({ sampleViewport with
        ctx := { sampleCtx with glInteropActive := true },
        pixelsUpdated := true } : FireRenderViewport).ctx.glInteropActive = true
    ∧ FireRenderViewport.setupTexturePhase
        { sampleViewport with
          ctx := { sampleCtx with glInteropActive := true }, pixelsUpdated := true } true
      = { sampleViewport with
          ctx := { sampleCtx with glInteropActive := true }, pixelsUpdated := true }
    ∧ (FireRenderViewport.readFrameBuffer
        { sampleViewport with
          ctx := { sampleCtx with glInteropActive := true }, pixelsUpdated := true }
        none).1.pixelsUpdated
      = ({ sampleViewport with
          ctx := { sampleCtx with glInteropActive := true },
          pixelsUpdated := true } : FireRenderViewport).pixelsUpdated :=
  ⟨rfl,
   (glInterop_setup_readFrameBuffer _ true sampleEnv none rfl).1,
   (glInterop_setup_readFrameBuffer _ true sampleEnv none rfl).2.2.2.2.2⟩

/-- C4: with GL interop inactive, `readFrameBuffer` with no stored frame
reads the colour AOV over the full region into `m_pixels` and sets
`m_pixelsUpdated`; with a stored frame it reads into the frame's data and
leaves the viewport state — including `m_pixelsUpdated` — unchanged. -/
theorem readFrameBuffer_standard (s : FireRenderViewport)
    (hGL : s.ctx.glInteropActive = false)
    (hw : 1 ≤ s.ctx.width) (hh : 1 ≤ s.ctx.height) :
    (FireRenderViewport.readFrameBuffer s none).1.pixels
      = (List.range (s.ctx.width * s.ctx.height)).map s.ctx.fbColor
    ∧ (FireRenderViewport.readFrameBuffer s none).1.pixelsUpdated = true
    ∧ (FireRenderViewport.readFrameBuffer s none).2 = none
    ∧ (∀ f, (FireRenderViewport.readFrameBuffer s (some f)).1 = s
        ∧ (FireRenderViewport.readFrameBuffer s (some f)).2
          = some { f with
              data := (List.range (s.ctx.width * s.ctx.height)).map s.ctx.fbColor }) := by
  have hfull := regionPixels_full s.ctx.fbColor s.ctx.width s.ctx.height hw hh
  refine ⟨?_, ?_, ?_, ?_⟩
  · simp [FireRenderViewport.readFrameBuffer, hGL, hfull]
  · simp [FireRenderViewport.readFrameBuffer, hGL]
  · simp [FireRenderViewport.readFrameBuffer, hGL]
  · intro f
    constructor
    · simp [FireRenderViewport.readFrameBuffer, hGL]
    · simp [FireRenderViewport.readFrameBuffer, hGL, hfull]

/-- C4 witness: on the 2x2 sample viewport a frame-buffer read fills
`m_pixels` with the four frame-buffer pixels in order and sets the updated
flag, while a read into a stored frame leaves the state unchanged. -/
theorem readFrameBuffer_standard_witness :
    sampleViewport.ctx.glInteropActive = false
    ∧ (FireRenderViewport.readFrameBuffer sampleViewport none).1.pixels
        = (List.range 4).map sampleViewport.ctx.fbColor
    ∧ (FireRenderViewport.readFrameBuffer sampleViewport none).1.pixelsUpdated = true
    ∧ (FireRenderViewport.readFrameBuffer sampleViewport
        (some emptyStoredFrame)).1 = sampleViewport :=
  ⟨rfl,
   (readFrameBuffer_standard sampleViewport rfl (by decide) (by decide)).1,
   (readFrameBuffer_standard sampleViewport rfl (by decide) (by decide)).2.1,
   ((readFrameBuffer_standard sampleViewport rfl (by decide) (by decide)).2.2.2
     emptyStoredFrame).1⟩

/-- C5: `Freshen` is the identity when the target-object list is empty;
otherwise every instance below the instance count receives the transform
`targetNodeMatrix * mashMatrix(i) * instancerMatrix`, where the target
node's parent transformation has its translation zeroed — so the target
node's translation never affects the produced instances. -/
theorem freshen_spec {M : Type} [Mul M] (api : MayaMatrixApi M) (inst : InstancerMASH M) :
    (inst.targetObjects = [] → InstancerMASH.Freshen api inst = inst)
    ∧ (inst.targetObjects ≠ [] → ∀ i, i < inst.instanceCount →
        ((InstancerMASH.Freshen api inst).instancedObjects[i]?).map MASHInstance.transform
          = some (api.asMatrix { inst.targetParentTransform with translation := ⟨0, 0, 0⟩ }
              * api.asMatrix (InstancerMASH.mashTransform api inst i)
              * api.asMatrix inst.instancerTransform))
    ∧ (∀ t, (InstancerMASH.Freshen api
          { inst with targetParentTransform :=
              { inst.targetParentTransform with translation := t } }).instancedObjects
        = (InstancerMASH.Freshen api inst).instancedObjects) := by
  refine ⟨?_, ?_, ?_⟩
  · intro hempty
    simp [InstancerMASH.Freshen, hempty]
  · intro hne i hi
    simp only [InstancerMASH.Freshen, InstancerMASH.GetTransformMatrices, if_neg hne]
    rw [List.getElem?_map, List.getElem?_range hi]
    simp [List.getElem?_map, List.getElem?_range hi]
  · intro t
    by_cases hempty : inst.targetObjects = []
    · simp [InstancerMASH.Freshen, hempty]
    · simp [InstancerMASH.Freshen, hempty, InstancerMASH.GetTransformMatrices,
        InstancerMASH.GenerateInstances, InstancerMASH.mashTransform]

/-- Maya math API instantiated at rationals, used by the C5 witness. -/
def sampleApi : MayaMatrixApi Rat :=
  { asMatrix := fun r => r.translation.x + r.scale.x + r.rotation.x,
    deg2rad := fun d => d / 2 }

/-- Concrete MASH instancer with two instances, used by the C5 witness. -/
def sampleInstancer : InstancerMASH Rat :=
  { targetObjects := [1], instanceCount := 2,
    positionData := fun i => ⟨i, 0, 0⟩,
    rotationData := fun i => ⟨90 * i, 0, 0⟩,
    scaleData := fun _ => ⟨1, 1, 1⟩,
    instancerTransform :=
      { scale := ⟨1, 1, 1⟩, rotation := ⟨0, 0, 0⟩, rotationOrder := .kXYZ,
        translation := ⟨5, 0, 0⟩ },
    targetParentTransform :=
      { scale := ⟨2, 1, 1⟩, rotation := ⟨0, 0, 0⟩, rotationOrder := .kXYZ,
        translation := ⟨9, 9, 9⟩ },
    templateTransform := 0,
    instancedObjects := [], instancedObjectsCachedSize := 0 }

/-- C5 witness: the sample instancer has a target object, and `Freshen` gives
instance 0 the zero-translation target matrix times the MASH matrix times
the instancer matrix. -/
theorem freshen_spec_witness :
    sampleInstancer.targetObjects ≠ []
    ∧ (0 < sampleInstancer.instanceCount)
    ∧ ((InstancerMASH.Freshen sampleApi sampleInstancer).instancedObjects[0]?).map
        MASHInstance.transform
      = some (sampleApi.asMatrix
            { sampleInstancer.targetParentTransform with translation := ⟨0, 0, 0⟩ }
          * sampleApi.asMatrix (InstancerMASH.mashTransform sampleApi sampleInstancer 0)
          * sampleApi.asMatrix sampleInstancer.instancerTransform) :=
  ⟨by decide, by decide,
   (freshen_spec sampleApi sampleInstancer).2.1 (by decide) 0 (by decide)⟩

/-- Light-linking never turns a shader node into a blend. -/
theorem linkLight_isBlend (env : ToonEnv) (ty : ShaderType)
    (ins : List (MaterialInput × ShaderInputValue)) (l : Option Nat) :
    (ToonMaterial.linkLight env (FrwShader.node ty ins l)).isBlend = false := by
  unfold ToonMaterial.linkLight
  split_ifs
  · rfl
  · rfl
  · cases henv : env.rprLight <;> simp [FrwShader.isBlend]

/-- C6: `GetShader` returns a `ShaderBlend` of the toon shader with a
transparent shader weighted by the transparency level exactly when the
transparency plug is enabled, and in that case no light is ever linked, even
when light linking is enabled. -/
theorem getShader_transparency (env : ToonEnv) (p : ToonPlugs) :
    ((ToonMaterial.GetShader env p).isBlend = p.transparencyEnable)
    ∧ (p.transparencyEnable = true →
        ToonMaterial.GetShader env p
          = FrwShader.blend (ToonMaterial.buildToonShader p)
              (FrwShader.node .Transparent [] none) p.transparencyLevel
        ∧ (ToonMaterial.GetShader env p).hasLinkedLight = false) := by
  by_cases ht : p.transparencyEnable = true
  · refine ⟨?_, fun _ => ⟨?_, ?_⟩⟩
    · simp [ToonMaterial.GetShader, ht, FrwShader.isBlend]
    · simp [ToonMaterial.GetShader, ht]
    · simp [ToonMaterial.GetShader, ht, ToonMaterial.buildToonShader,
        FrwShader.hasLinkedLight]
  · have ht2 : p.transparencyEnable = false := by
      cases hcase : p.transparencyEnable
      · rfl
      · exact absurd hcase ht
    refine ⟨?_, fun hcontra => absurd hcontra ht⟩
    by_cases hl : p.enableLightLinking = true
    · simp [ToonMaterial.GetShader, ht2, hl, ToonMaterial.buildToonShader,
        linkLight_isBlend]
    · simp [ToonMaterial.GetShader, ht2, hl, ToonMaterial.buildToonShader,
        FrwShader.isBlend]

/-- Environment for the C6 witness: a normal render with a resolvable linked
light. -/
def sampleToonEnv : ToonEnv :=
  { renderType := .Normal, lightFound := true, rprLight := some 3 }

/-- Plug values for the C6 witness: transparency and light linking both
enabled. -/
def sampleToonPlugs : ToonPlugs :=
  { showAdvanced := true, showMixLevels := true, enable5Colors := false,
    transparencyEnable := true, enableLightLinking := true,
    color := ⟨1, 0⟩, normal := ⟨2, 1⟩, roughness := ⟨3, 0⟩,
    transparencyLevel := ⟨4, 0⟩,
    highlightColor := ⟨0, 0⟩, highlightColor2 := ⟨0, 0⟩, midColor := ⟨0, 0⟩,
    shadowColor := ⟨0, 0⟩, shadowColor2 := ⟨0, 0⟩,
    rampPositionShadow := ⟨0, 0⟩, rampPosition1 := ⟨0, 0⟩,
    rampPosition2 := ⟨0, 0⟩, rampPositionHighlight := ⟨0, 0⟩,
    rampRangeShadow := ⟨0, 0⟩, rampRange1 := ⟨0, 0⟩,
    rampRange2 := ⟨0, 0⟩, rampRangeHighlight := ⟨0, 0⟩ }

/-- C6 witness: with transparency and light linking both enabled, the built
shader is the blend and carries no linked light. -/
theorem getShader_transparency_witness :
    sampleToonPlugs.transparencyEnable = true
    ∧ sampleToonPlugs.enableLightLinking = true
    ∧ ToonMaterial.GetShader sampleToonEnv sampleToonPlugs
        = FrwShader.blend (ToonMaterial.buildToonShader sampleToonPlugs)
            (FrwShader.node .Transparent [] none) sampleToonPlugs.transparencyLevel
    ∧ (ToonMaterial.GetShader sampleToonEnv sampleToonPlugs).hasLinkedLight = false :=
  ⟨rfl, rfl,
   ((getShader_transparency sampleToonEnv sampleToonPlugs).2 rfl).1,
   ((getShader_transparency sampleToonEnv sampleToonPlugs).2 rfl).2⟩

/-! Preservation lemmas: fields the individual operations leave untouched. -/

/-- Status returned by `updateTexture` is always success in the model. -/
@[simp] theorem updateTexture_fst (s : FireRenderViewport) (d : List RV_PIXEL)
    (w h : Nat) (ok : Bool) :
    (FireRenderViewport.updateTexture s d w h ok).1 = MStatus.kSuccess := by
  cases hts : s.texture <;> simp [FireRenderViewport.updateTexture, hts]

/-- The context is untouched by `updateTexture`. -/
@[simp] theorem updateTexture_ctx (s : FireRenderViewport) (d : List RV_PIXEL)
    (w h : Nat) (ok : Bool) :
    (FireRenderViewport.updateTexture s d w h ok).2.ctx = s.ctx := by
  cases hts : s.texture <;> simp [FireRenderViewport.updateTexture, hts]

/-- The panel name is untouched by `updateTexture`. -/
@[simp] theorem updateTexture_panelName (s : FireRenderViewport) (d : List RV_PIXEL)
    (w h : Nat) (ok : Bool) :
    (FireRenderViewport.updateTexture s d w h ok).2.panelName = s.panelName := by
  cases hts : s.texture <;> simp [FireRenderViewport.updateTexture, hts]

/-- The frame cache is untouched by `updateTexture`. -/
@[simp] theorem updateTexture_textureCache (s : FireRenderViewport) (d : List RV_PIXEL)
    (w h : Nat) (ok : Bool) :
    (FireRenderViewport.updateTexture s d w h ok).2.textureCache = s.textureCache := by
  cases hts : s.texture <;> simp [FireRenderViewport.updateTexture, hts]

/-- The running flag is untouched by `updateTexture`. -/
@[simp] theorem updateTexture_isRunning (s : FireRenderViewport) (d : List RV_PIXEL)
    (w h : Nat) (ok : Bool) :
    (FireRenderViewport.updateTexture s d w h ok).2.isRunning = s.isRunning := by
  cases hts : s.texture <;> simp [FireRenderViewport.updateTexture, hts]

/-- The error flag is untouched by `updateTexture`. -/
@[simp] theorem updateTexture_errorSet (s : FireRenderViewport) (d : List RV_PIXEL)
    (w h : Nat) (ok : Bool) :
    (FireRenderViewport.updateTexture s d w h ok).2.errorSet = s.errorSet := by
  cases hts : s.texture <;> simp [FireRenderViewport.updateTexture, hts]

/-- The frame cache is untouched by `readFrameBuffer`. -/
@[simp] theorem readFrameBuffer_textureCache (s : FireRenderViewport)
    (stf : Option StoredFrame) :
    (FireRenderViewport.readFrameBuffer s stf).1.textureCache = s.textureCache := by
  unfold FireRenderViewport.readFrameBuffer
  split_ifs <;> cases stf <;> rfl

/-- The panel name is untouched by `readFrameBuffer`. -/
@[simp] theorem readFrameBuffer_panelName (s : FireRenderViewport)
    (stf : Option StoredFrame) :
    (FireRenderViewport.readFrameBuffer s stf).1.panelName = s.panelName := by
  unfold FireRenderViewport.readFrameBuffer
  split_ifs <;> cases stf <;> rfl

/-- The hardware texture is untouched by `readFrameBuffer`. -/
@[simp] theorem readFrameBuffer_texture (s : FireRenderViewport)
    (stf : Option StoredFrame) :
    (FireRenderViewport.readFrameBuffer s stf).1.texture = s.texture := by
  unfold FireRenderViewport.readFrameBuffer
  split_ifs <;> cases stf <;> rfl

/-- The running flag is untouched by `readFrameBuffer`. -/
@[simp] theorem readFrameBuffer_isRunning (s : FireRenderViewport)
    (stf : Option StoredFrame) :
    (FireRenderViewport.readFrameBuffer s stf).1.isRunning = s.isRunning := by
  unfold FireRenderViewport.readFrameBuffer
  split_ifs <;> cases stf <;> rfl

/-- The error flag is untouched by `readFrameBuffer`. -/
@[simp] theorem readFrameBuffer_errorSet (s : FireRenderViewport)
    (stf : Option StoredFrame) :
    (FireRenderViewport.readFrameBuffer s stf).1.errorSet = s.errorSet := by
  unfold FireRenderViewport.readFrameBuffer
  split_ifs <;> cases stf <;> rfl

/-- The state hash is untouched by `readFrameBuffer`. -/
@[simp] theorem readFrameBuffer_stateHash (s : FireRenderViewport)
    (stf : Option StoredFrame) :
    (FireRenderViewport.readFrameBuffer s stf).1.ctx.stateHash = s.ctx.stateHash := by
  unfold FireRenderViewport.readFrameBuffer
  split_ifs <;> cases stf <;> rfl

/-- The render count is untouched by `readFrameBuffer`. -/
@[simp] theorem readFrameBuffer_renderCount (s : FireRenderViewport)
    (stf : Option StoredFrame) :
    (FireRenderViewport.readFrameBuffer s stf).1.ctx.renderCount = s.ctx.renderCount := by
  unfold FireRenderViewport.readFrameBuffer
  split_ifs <;> cases stf <;> rfl

/-- A frame read into by `readFrameBuffer` keeps its dimensions. -/
theorem readFrameBuffer_frameDims (s : FireRenderViewport) (f : StoredFrame) :
    ((FireRenderViewport.readFrameBuffer s (some f)).2.getD f).width = f.width
    ∧ ((FireRenderViewport.readFrameBuffer s (some f)).2.getD f).height = f.height := by
  unfold FireRenderViewport.readFrameBuffer
  split_ifs <;> simp

/-- `Resize` always leaves the frame at the requested dimensions. -/
theorem storedFrame_resize_dims (f : StoredFrame) (w h : Nat) :
    (StoredFrame.Resize f w h).2.width = w ∧ (StoredFrame.Resize f w h).2.height = h := by
  unfold StoredFrame.Resize
  split_ifs with hc
  · exact ⟨hc.1, hc.2⟩
  · exact ⟨rfl, rfl⟩

/-- `Resize` to the frame's own dimensions reports no resizing. -/
theorem storedFrame_resize_same (f : StoredFrame) :
    StoredFrame.Resize f f.width f.height = (false, f) := by
  simp [StoredFrame.Resize]

/-- Lookup after insertion finds the inserted frame. -/
theorem lookupFrame_insert (c : List (String × StoredFrame)) (k : String)
    (f : StoredFrame) :
    lookupFrame (insertFrame c k f) k = some f := by
  simp [lookupFrame, insertFrame]

/-- The cache key only depends on the panel name and the state hash. -/
theorem cacheKey_congr (s1 s2 : FireRenderViewport)
    (hp : s1.panelName = s2.panelName) (hh : s1.ctx.stateHash = s2.ctx.stateHash) :
    FireRenderViewport.cacheKey s1 = FireRenderViewport.cacheKey s2 := by
  unfold FireRenderViewport.cacheKey
  rw [hp, hh]

/-- Fields `renderCached` leaves untouched: the panel name, the state hash,
the running flag and the error flag. -/
theorem renderCached_preserves (ok : Bool) (s : FireRenderViewport) (w h : Nat) :
    (FireRenderViewport.renderCached ok s w h).2.panelName = s.panelName
    ∧ (FireRenderViewport.renderCached ok s w h).2.ctx.stateHash = s.ctx.stateHash
    ∧ (FireRenderViewport.renderCached ok s w h).2.isRunning = s.isRunning
    ∧ (FireRenderViewport.renderCached ok s w h).2.errorSet = s.errorSet := by
  unfold FireRenderViewport.renderCached
  dsimp only
  split_ifs <;> simp

/-- With a cached frame already at the requested size under the current key,
`renderCached` performs no render and updates the texture from the stored
frame data. -/
theorem renderCached_cacheHit (ok : Bool) (s : FireRenderViewport) (w h : Nat)
    (f : StoredFrame)
    (hf : lookupFrame s.textureCache (FireRenderViewport.cacheKey s) = some f)
    (hw : f.width = w) (hh : f.height = h) :
    (FireRenderViewport.renderCached ok s w h).2.ctx.renderCount = s.ctx.renderCount
    ∧ (∀ t, s.texture = some t →
        (FireRenderViewport.renderCached ok s w h).2.texture
          = some { t with data := f.data }) := by
  subst hw
  subst hh
  have hf2 : lookupFrame
      ({ s with pixelsUpdated := false } : FireRenderViewport).textureCache
      (FireRenderViewport.cacheKey { s with pixelsUpdated := false }) = some f := hf
  constructor
  · unfold FireRenderViewport.renderCached
    dsimp only
    rw [hf2]
    simp [storedFrame_resize_same]
  · intro t ht
    unfold FireRenderViewport.renderCached
    dsimp only
    rw [hf2]
    simp only [Option.getD_some, storedFrame_resize_same]
    simp [FireRenderViewport.updateTexture, ht]

/-- Lookup through `updateTexture` after an insertion finds the inserted
frame. -/
theorem lookup_after_update (s2 : FireRenderViewport)
    (c : List (String × StoredFrame)) (k : String) (f : StoredFrame)
    (d : List RV_PIXEL) (w h : Nat) (ok : Bool)
    (hc : s2.textureCache = insertFrame c k f) :
    lookupFrame (FireRenderViewport.updateTexture s2 d w h ok).2.textureCache k
      = some f := by
  rw [updateTexture_textureCache, hc]
  exact lookupFrame_insert _ _ _

/-- After any `renderCached` call, the cache holds a frame of the requested
size under the key of the state the call was made from. -/
theorem renderCached_result (ok : Bool) (s : FireRenderViewport) (w h : Nat) :
    ∃ f, lookupFrame (FireRenderViewport.renderCached ok s w h).2.textureCache
          (FireRenderViewport.cacheKey s) = some f
      ∧ f.width = w ∧ f.height = h := by
  unfold FireRenderViewport.renderCached
  dsimp only
  rw [show FireRenderViewport.cacheKey { s with pixelsUpdated := false }
      = FireRenderViewport.cacheKey s from rfl]
  split_ifs with hrz
  · refine ⟨_, lookup_after_update _ _ _ _ _ _ _ _ rfl, ?_, ?_⟩
    · rw [(readFrameBuffer_frameDims _ _).1]
      exact (storedFrame_resize_dims _ w h).1
    · rw [(readFrameBuffer_frameDims _ _).2]
      exact (storedFrame_resize_dims _ w h).2
  · refine ⟨_, lookup_after_update _ _ _ _ _ _ _ _ rfl, ?_, ?_⟩
    · exact (storedFrame_resize_dims _ w h).1
    · exact (storedFrame_resize_dims _ w h).2

/-- A second `renderCached` call at the same size performs no render: the
frame for that state hash and size is rendered at most once. -/
theorem renderCached_once (ok : Bool) (s : FireRenderViewport) (w h : Nat) :
    (FireRenderViewport.renderCached ok
        (FireRenderViewport.renderCached ok s w h).2 w h).2.ctx.renderCount
      = (FireRenderViewport.renderCached ok s w h).2.ctx.renderCount := by
  obtain ⟨f, hf, hw, hh⟩ := renderCached_result ok s w h
  have hkey : FireRenderViewport.cacheKey (FireRenderViewport.renderCached ok s w h).2
      = FireRenderViewport.cacheKey s :=
    cacheKey_congr _ _ (renderCached_preserves ok s w h).1
      (renderCached_preserves ok s w h).2.1
  exact (renderCached_cacheHit ok (FireRenderViewport.renderCached ok s w h).2 w h f
    (by rw [hkey]; exact hf) hw hh).1

/-- `stop` always leaves the running flag cleared. -/
@[simp] theorem stop_isRunning (s : FireRenderViewport) :
    (FireRenderViewport.stop s).isRunning = false := by
  unfold FireRenderViewport.stop
  dsimp only
  split_ifs <;> simp_all

/-- The error flag is untouched by `stop`. -/
@[simp] theorem stop_errorSet (s : FireRenderViewport) :
    (FireRenderViewport.stop s).errorSet = s.errorSet := by
  unfold FireRenderViewport.stop
  dsimp only
  split_ifs <;> rfl

/-- The error flag is untouched by the texture-release step of `resize`. -/
@[simp] theorem resizeReleaseTexture_errorSet (s : FireRenderViewport) :
    (FireRenderViewport.resizeReleaseTexture s).errorSet = s.errorSet := by
  unfold FireRenderViewport.resizeReleaseTexture
  split <;> rfl

/-- The running flag is untouched by the texture-release step of `resize`. -/
@[simp] theorem resizeReleaseTexture_isRunning (s : FireRenderViewport) :
    (FireRenderViewport.resizeReleaseTexture s).isRunning = s.isRunning := by
  unfold FireRenderViewport.resizeReleaseTexture
  split <;> rfl

/-- The error flag is untouched by the standard frame-buffer resize. -/
@[simp] theorem resizeFBStd_errorSet (env : Env) (s : FireRenderViewport) (w h : Nat) :
    (FireRenderViewport.resizeFrameBufferStandard env s w h).errorSet = s.errorSet := by
  unfold FireRenderViewport.resizeFrameBufferStandard
  dsimp only
  simp

/-- The running flag is untouched by the standard frame-buffer resize. -/
@[simp] theorem resizeFBStd_isRunning (env : Env) (s : FireRenderViewport) (w h : Nat) :
    (FireRenderViewport.resizeFrameBufferStandard env s w h).isRunning = s.isRunning := by
  unfold FireRenderViewport.resizeFrameBufferStandard
  dsimp only
  simp

/-- The error flag is untouched by the GL-interop frame-buffer resize. -/
@[simp] theorem resizeFBGL_errorSet (env : Env) (s : FireRenderViewport) (w h : Nat) :
    (FireRenderViewport.resizeFrameBufferGLInterop env s w h).errorSet = s.errorSet := by
  unfold FireRenderViewport.resizeFrameBufferGLInterop FireRenderViewport.clearPixels
  dsimp only
  split <;> simp

/-- The running flag is untouched by the GL-interop frame-buffer resize. -/
@[simp] theorem resizeFBGL_isRunning (env : Env) (s : FireRenderViewport) (w h : Nat) :
    (FireRenderViewport.resizeFrameBufferGLInterop env s w h).isRunning = s.isRunning := by
  unfold FireRenderViewport.resizeFrameBufferGLInterop FireRenderViewport.clearPixels
  dsimp only
  split <;> simp

/-- `refreshContext` always reports success. -/
@[simp] theorem refreshContext_fst (s : FireRenderViewport) :
    (FireRenderViewport.refreshContext s).1 = MStatus.kSuccess := by
  unfold FireRenderViewport.refreshContext
  split_ifs <;> rfl

/-- The error flag is untouched by `refreshContext`. -/
@[simp] theorem refreshContext_errorSet (s : FireRenderViewport) :
    (FireRenderViewport.refreshContext s).2.errorSet = s.errorSet := by
  unfold FireRenderViewport.refreshContext
  split_ifs <;> rfl

/-- The running flag is untouched by `refreshContext`. -/
@[simp] theorem refreshContext_isRunning (s : FireRenderViewport) :
    (FireRenderViewport.refreshContext s).2.isRunning = s.isRunning := by
  unfold FireRenderViewport.refreshContext
  split_ifs <;> rfl

/-- With both Maya view calls succeeding, `resize` reports success and leaves
the error and running flags untouched. -/
theorem resize_success (env : Env) (s : FireRenderViewport) (w h : Nat)
    (hp : env.panelViewOk = true) (hg : env.getCameraOk = true) :
    (FireRenderViewport.resize env s w h).1 = MStatus.kSuccess
    ∧ (FireRenderViewport.resize env s w h).2.errorSet = s.errorSet
    ∧ (FireRenderViewport.resize env s w h).2.isRunning = s.isRunning := by
  unfold FireRenderViewport.resize
  dsimp only
  simp only [hp, hg, Bool.not_true]
  split_ifs <;> simp_all

/-- With both Maya view calls succeeding, the size-change and refresh steps
report success and leave the error and running flags untouched. -/
theorem doSetupPrepTail_spec (env : Env) (s : FireRenderViewport) (w h : Nat)
    (hp : env.panelViewOk = true) (hg : env.getCameraOk = true) :
    (FireRenderViewport.doSetupPrepTail env s w h).1 = MStatus.kSuccess
    ∧ (FireRenderViewport.doSetupPrepTail env s w h).2.errorSet = s.errorSet
    ∧ (FireRenderViewport.doSetupPrepTail env s w h).2.isRunning = s.isRunning := by
  unfold FireRenderViewport.doSetupPrepTail
  split_ifs with hsz
  · rcases hres : FireRenderViewport.resize env s w h with ⟨st, s1⟩
    have h1 := resize_success env s w h hp hg
    rw [hres] at h1
    obtain ⟨h1a, h1b, h1c⟩ := h1
    dsimp only at h1a h1b h1c
    subst h1a
    simp [h1b, h1c]
  · simp

/-- With both Maya view calls succeeding, the preparation phase of `doSetup`
reports success, preserves the error flag, and ends with the render thread
stopped whenever cached frames are to be used. -/
theorem doSetupPrep_spec (env : Env) (s : FireRenderViewport) (w h : Nat)
    (hp : env.panelViewOk = true) (hg : env.getCameraOk = true) :
    (FireRenderViewport.doSetupPrep env s w h).1 = MStatus.kSuccess
    ∧ (FireRenderViewport.doSetupPrep env s w h).2.errorSet = s.errorSet
    ∧ ((env.animating && s.useAnimationCacheFlag && !s.ctx.glInteropActive) = true →
        (FireRenderViewport.doSetupPrep env s w h).2.isRunning = false) := by
  unfold FireRenderViewport.doSetupPrep
  dsimp only
  by_cases hstop : (s.isRunning
      && (env.animating && s.useAnimationCacheFlag && !s.ctx.glInteropActive)) = true
  · rw [if_pos hstop]
    refine ⟨(doSetupPrepTail_spec env _ w h hp hg).1, ?_, ?_⟩
    · rw [(doSetupPrepTail_spec env _ w h hp hg).2.1]
      simp
    · intro _
      rw [(doSetupPrepTail_spec env _ w h hp hg).2.2]
      simp
  · rw [if_neg hstop]
    refine ⟨(doSetupPrepTail_spec env _ w h hp hg).1, ?_, ?_⟩
    · rw [(doSetupPrepTail_spec env _ w h hp hg).2.1]
    · intro huc
      rw [(doSetupPrepTail_spec env _ w h hp hg).2.2]
      rw [huc] at hstop
      simp at hstop
      exact hstop

/-- C1: while animating with the animation cache enabled and GL interop
inactive, `doSetup` stops the live render thread (if running) and serves the
frame through `renderCached`; `renderCached` renders only when the cached
frame for the panel-name/state-hash key required resizing to the requested
size, otherwise it updates the texture from the stored data without
rendering, so a frame is rendered at most once per state hash and size. -/
theorem doSetup_animationCache_spec (env : Env) (s : FireRenderViewport) (w h : Nat)
    (ha : env.animating = true) (hc : s.useAnimationCacheFlag = true)
    (hgl : s.ctx.glInteropActive = false) (he : s.errorSet = false)
    (hsz : FireRenderViewport.getSize env.maxTexSize env.outputTargetSize = some (w, h))
    (hp : env.panelViewOk = true) (hg : env.getCameraOk = true) :
    FireRenderViewport.doSetup env s
      = FireRenderViewport.renderCached env.acquireOk
          (FireRenderViewport.doSetupPrep env s w h).2 w h
    ∧ (FireRenderViewport.doSetupPrep env s w h).2.isRunning = false
    ∧ (FireRenderViewport.doSetup env s).2.isRunning = false
    ∧ (∀ s2 w2 h2 f,
        lookupFrame s2.textureCache (FireRenderViewport.cacheKey s2) = some f →
        f.width = w2 → f.height = h2 →
        (FireRenderViewport.renderCached env.acquireOk s2 w2 h2).2.ctx.renderCount
          = s2.ctx.renderCount
        ∧ (∀ t, s2.texture = some t →
            (FireRenderViewport.renderCached env.acquireOk s2 w2 h2).2.texture
              = some { t with data := f.data }))
    ∧ (∀ s2 w2 h2,
        (FireRenderViewport.renderCached env.acquireOk
            (FireRenderViewport.renderCached env.acquireOk s2 w2 h2).2 w2 h2).2.ctx.renderCount
          = (FireRenderViewport.renderCached env.acquireOk s2 w2 h2).2.ctx.renderCount) := by
  have huse : (env.animating && s.useAnimationCacheFlag && !s.ctx.glInteropActive) = true := by
    rw [ha, hc, hgl]
    rfl
  have hprep := doSetupPrep_spec env s w h hp hg
  rcases hpp : FireRenderViewport.doSetupPrep env s w h with ⟨st1, s1⟩
  rw [hpp] at hprep
  obtain ⟨hpa, hpb, hpc⟩ := hprep
  dsimp only at hpa hpb hpc
  subst hpa
  dsimp only
  have heq : FireRenderViewport.doSetup env s
      = FireRenderViewport.renderCached env.acquireOk s1 w h := by
    unfold FireRenderViewport.doSetup
    rw [hsz]
    dsimp only
    rw [hpp]
    simp [he, hpb, huse]
  refine ⟨heq, hpc huse, ?_, ?_, ?_⟩
  · rw [heq, (renderCached_preserves env.acquireOk s1 w h).2.2.1]
    exact hpc huse
  · intro s2 w2 h2 f hf hw2 hh2
    exact renderCached_cacheHit env.acquireOk s2 w2 h2 f hf hw2 hh2
  · intro s2 w2 h2
    exact renderCached_once env.acquireOk s2 w2 h2

/-- C1 witness: on the animating sample environment and running sample
viewport, `doSetup` equals the cached-frame path and ends with the render
thread stopped. -/
theorem doSetup_animationCache_spec_witness :
    sampleEnv.animating = true
    ∧ sampleViewport.useAnimationCacheFlag = true
    ∧ sampleViewport.ctx.glInteropActive = false
    ∧ sampleViewport.isRunning = true
    ∧ FireRenderViewport.getSize sampleEnv.maxTexSize sampleEnv.outputTargetSize
        = some (2, 2)
    ∧ FireRenderViewport.doSetup sampleEnv sampleViewport
        = FireRenderViewport.renderCached sampleEnv.acquireOk
            (FireRenderViewport.doSetupPrep sampleEnv sampleViewport 2 2).2 2 2
    ∧ (FireRenderViewport.doSetup sampleEnv sampleViewport).2.isRunning = false :=
  ⟨rfl, rfl, rfl, rfl, by decide,
   (doSetup_animationCache_spec sampleEnv sampleViewport 2 2 rfl rfl rfl rfl
     (by decide) rfl rfl).1,
   (doSetup_animationCache_spec sampleEnv sampleViewport 2 2 rfl rfl rfl rfl
     (by decide) rfl rfl).2.2.1⟩

end RPRMaya
